import Mathlib

/-
Verification of the Nankai-Trough earthquake damage simulator
(`earthquake_app.py`, class `NankaiEarthquakeSimulator`).

The Python code computes over floats with `math.log10`, `math.exp`,
`math.sin`, `math.cos`, `math.atan2`, `math.sqrt`, Python `int(...)`
truncation and Python `round(...)` (banker's rounding).  We embed it in
the standard real-number idealisation of floats: every float expression
becomes a real-number expression, `int(x)` becomes truncation toward
zero, and `round(x, n)` becomes round-half-to-even at the n-th decimal.
Dictionaries returned by the Python methods become structures whose
fields are listed in the order of the dictionary keys
(全壊 = collapsed, 半壊 = severe, 一部損壊 = moderate, 被害なし = undamaged,
津波高 = height, 到達時間 = arrival, 浸水面積率 = inundation,
死者 = deaths, 重傷者 = serious, 軽傷者 = minor,
停電率 = electricity, 断水率 = water, ガス供給停止率 = gas).
-/

open Real

noncomputable section

/-- Python `int(x)` on a float: truncation toward zero. -/
def pyInt (x : ℝ) : ℤ := if 0 ≤ x then ⌊x⌋ else ⌈x⌉

/-- Python `round(x)` to the nearest integer, ties to even
(banker's rounding), in the real-number idealisation. -/
def pyRound (x : ℝ) : ℤ :=
  if Int.fract x < 1 / 2 then ⌊x⌋
  else if 1 / 2 < Int.fract x then ⌊x⌋ + 1
  else if Even ⌊x⌋ then ⌊x⌋ else ⌊x⌋ + 1

/-- Python `round(x, 1)`: round to one decimal digit. -/
def round1 (x : ℝ) : ℝ := (pyRound (x * 10) : ℝ) / 10

/-- Python `round(x, 0)`: round to an integral float. -/
def round0 (x : ℝ) : ℝ := (pyRound x : ℝ)

/-- `math.radians`: degrees to radians. -/
def radians (x : ℝ) : ℝ := x * π / 180

/-- `math.atan2 y x` with the C/IEEE branch conventions
(real idealisation, so no signed zeros). -/
def atan2 (y x : ℝ) : ℝ :=
  if 0 < x then arctan (y / x)
  else if x < 0 then
    if 0 ≤ y then arctan (y / x) + π else arctan (y / x) - π
  else if 0 < y then π / 2
  else if y < 0 then -(π / 2)
  else 0

/-- Dataclass `EarthquakeParameters` (magnitude, depth,
epicenter_lat, epicenter_lon). -/
structure EarthquakeParameters where
  magnitude : ℝ
  depth : ℝ
  epicenter_lat : ℝ
  epicenter_lon : ℝ

/-- Dataclass `RegionData`.  The source field `wooden_ratio`
is embedded under the shortened name `wooden`. -/
structure RegionData where
  name : String
  lat : ℝ
  lon : ℝ
  population : ℤ
  buildings : ℤ
  wooden : ℝ
  coastal : Bool
  elevation : ℝ

/-- `NankaiEarthquakeSimulator.calculate_distance`: haversine
great-circle distance with Earth radius 6371 km. -/
def calculate_distance (lat1 lon1 lat2 lon2 : ℝ) : ℝ :=
  let R : ℝ := 6371
  let dLat := radians (lat2 - lat1)
  let dLon := radians (lon2 - lon1)
  let a := sin (dLat / 2) ^ 2 +
    cos (radians lat1) * cos (radians lat2) * sin (dLon / 2) ^ 2
  let c := 2 * atan2 (sqrt a) (sqrt (1 - a))
  R * c

/-- `NankaiEarthquakeSimulator.calculate_seismic_intensity`. -/
def calculate_seismic_intensity (eq : EarthquakeParameters)
    (region : RegionData) : ℝ :=
  let distance :=
    calculate_distance eq.epicenter_lat eq.epicenter_lon region.lat region.lon
  let distance := if distance < 1 then 1 else distance
  let intensity :=
    eq.magnitude - 3.5 * logb 10 distance - 0.006 * distance + 1.5
  let depth_factor := 1 - eq.depth / 100 * 0.3
  min 7 (max 0 (intensity * depth_factor))

/-- Result dictionary of `estimate_building_damage`. -/
structure BuildingDamage where
  collapsed : ℤ
  severe : ℤ
  moderate : ℤ
  undamaged : ℤ

/-- The if/elif chain of `estimate_building_damage` that assigns
`collapse_rate` and `severe_rate`, as a pair `(collapse_rate, severe_rate)`
in terms of the intensity and the region's wooden ratio `w`. -/
def damage_rates (intensity w : ℝ) : ℝ × ℝ :=
  if 7 ≤ intensity then
    (0.3 * w + 0.05 * (1 - w), 0.4 * w + 0.15 * (1 - w))
  else if 6.5 ≤ intensity then
    (0.15 * w + 0.02 * (1 - w), 0.3 * w + 0.1 * (1 - w))
  else if 6 ≤ intensity then
    (0.05 * w + 0.005 * (1 - w), 0.15 * w + 0.05 * (1 - w))
  else if 5.5 ≤ intensity then
    (0.01 * w, 0.05 * w + 0.01 * (1 - w))
  else
    (0, if 5 ≤ intensity then 0.01 * w else 0)

/-- `NankaiEarthquakeSimulator.estimate_building_damage`. -/
def estimate_building_damage (intensity : ℝ) (region : RegionData) :
    BuildingDamage :=
  let rates := damage_rates intensity region.wooden
  let collapsed := pyInt ((region.buildings : ℝ) * rates.1)
  let severe_damage := pyInt ((region.buildings : ℝ) * rates.2)
  let moderate_damage := pyInt ((region.buildings : ℝ) * rates.2 * 0.5)
  ⟨collapsed, severe_damage, moderate_damage,
    region.buildings - collapsed - severe_damage - moderate_damage⟩

/-- Result dictionary of `estimate_tsunami`. -/
structure TsunamiResult where
  height : ℝ
  arrival : ℝ
  inundation : ℝ

/-- `NankaiEarthquakeSimulator.estimate_tsunami`. -/
def estimate_tsunami (eq : EarthquakeParameters) (region : RegionData) :
    TsunamiResult :=
  if !region.coastal then ⟨0, 0, 0⟩
  else
    let distance :=
      calculate_distance eq.epicenter_lat eq.epicenter_lon region.lat region.lon
    let base_height : ℝ :=
      if 8.0 ≤ eq.magnitude then 10
      else if 7.5 ≤ eq.magnitude then 5
      else 2
    let tsunami_height := base_height * exp (-distance / 500)
    let tsunami_height :=
      if region.elevation > tsunami_height then 0 else tsunami_height
    let arrival_time := distance / 12
    let inundation_rate : ℝ :=
      if tsunami_height > 5 then 0.3
      else if tsunami_height > 2 then 0.15
      else if tsunami_height > 0 then 0.05
      else 0
    ⟨round1 tsunami_height, round0 arrival_time, inundation_rate⟩

/-- Result dictionary of `estimate_casualties`. -/
structure CasualtyResult where
  deaths : ℤ
  serious : ℤ
  minor : ℤ

/-- `NankaiEarthquakeSimulator.estimate_casualties`.  The tsunami branch
computes the pair `(tsunami_deaths, tsunami_injuries)`. -/
def estimate_casualties (_intensity : ℝ) (bd : BuildingDamage)
    (ts : TsunamiResult) (region : RegionData) : CasualtyResult :=
  let building_deaths := pyInt ((bd.collapsed : ℝ) * 0.01)
  let building_injuries := pyInt (((bd.collapsed + bd.severe : ℤ) : ℝ) * 0.05)
  let tsunamiPair : ℤ × ℤ :=
    if ts.height > 0 then
      let affected_population := pyInt ((region.population : ℝ) * ts.inundation)
      let evacuation_rate := min 0.8 (ts.arrival / 60)
      let non_evacuated := (affected_population : ℝ) * (1 - evacuation_rate)
      (pyInt (if ts.height > 2 then non_evacuated * 0.1 else non_evacuated * 0.02),
       pyInt (non_evacuated * 0.2))
    else (0, 0)
  ⟨building_deaths + tsunamiPair.1,
   pyInt (((building_injuries + tsunamiPair.2 : ℤ) : ℝ) * 0.3),
   pyInt (((building_injuries + tsunamiPair.2 : ℤ) : ℝ) * 0.7)⟩

/-- Result dictionary of `estimate_infrastructure_damage`. -/
structure InfrastructureResult where
  electricity : ℝ
  water : ℝ
  gas : ℝ

/-- `NankaiEarthquakeSimulator.estimate_infrastructure_damage`.  In the
final source branch each of the three rates is
`0.05 if intensity >= 5 else 0`; the chain is flattened accordingly. -/
def estimate_infrastructure_damage (intensity : ℝ) (_region : RegionData) :
    InfrastructureResult :=
  if 6.5 ≤ intensity then ⟨0.8, 0.9, 0.85⟩
  else if 6 ≤ intensity then ⟨0.5, 0.6, 0.55⟩
  else if 5.5 ≤ intensity then ⟨0.2, 0.3, 0.25⟩
  else if 5 ≤ intensity then ⟨0.05, 0.05, 0.05⟩
  else ⟨0, 0, 0⟩

/-- One row of the DataFrame built by `simulate`.  The two percentage
columns are f-strings `f"{rate*100:.0f}%"`; they are embedded as the
displayed integer (format `.0f` rounds half to even). -/
structure ResultRow where
  region_name : String
  intensity_display : ℝ
  collapsed : ℤ
  severe : ℤ
  tsunami_height : ℝ
  tsunami_arrival : ℝ
  deaths : ℤ
  injured : ℤ
  electricity_pct : ℤ
  water_pct : ℤ
  economic_loss : ℝ

/-- Loop body of `NankaiEarthquakeSimulator.simulate` for one region. -/
def simulate_region (eq : EarthquakeParameters) (region : RegionData) :
    ResultRow :=
  let intensity := calculate_seismic_intensity eq region
  let building_damage := estimate_building_damage intensity region
  let tsunami := estimate_tsunami eq region
  let casualties := estimate_casualties intensity building_damage tsunami region
  let infrastructure := estimate_infrastructure_damage intensity region
  let economic_loss : ℝ :=
    ((building_damage.collapsed * 20000000 + building_damage.severe * 10000000 +
      building_damage.moderate * 2000000 : ℤ) : ℝ) / 100000000
  ⟨region.name, round1 intensity, building_damage.collapsed,
    building_damage.severe, tsunami.height, tsunami.arrival,
    casualties.deaths, casualties.serious + casualties.minor,
    pyRound (infrastructure.electricity * 100),
    pyRound (infrastructure.water * 100),
    round0 economic_loss⟩

/-- `NankaiEarthquakeSimulator.simulate`: one result row per region of
the simulator state, in catalog order. -/
def simulate (regions : List RegionData) (eq : EarthquakeParameters) :
    List ResultRow :=
  regions.map (simulate_region eq)

/-- The hardcoded region catalog built by
`NankaiEarthquakeSimulator.__init__`. -/
def nankai_regions : List RegionData :=
  [⟨"静岡市", 34.9756, 138.3827, 700000, 280000, 0.4, true, 20⟩,
   ⟨"浜松市", 34.7108, 137.7261, 800000, 320000, 0.45, true, 10⟩,
   ⟨"名古屋市", 35.1815, 136.9066, 2300000, 920000, 0.3, false, 15⟩,
   ⟨"津市", 34.7185, 136.5056, 280000, 112000, 0.5, true, 5⟩,
   ⟨"大阪市", 34.6937, 135.5023, 2700000, 1080000, 0.25, true, 5⟩,
   ⟨"和歌山市", 34.2306, 135.1708, 360000, 144000, 0.45, true, 8⟩,
   ⟨"高知市", 33.5597, 133.5311, 330000, 132000, 0.5, true, 3⟩,
   ⟨"徳島市", 34.0658, 134.5594, 260000, 104000, 0.48, true, 2⟩]

/-- The raw (pre-rounding, pre-elevation-check) wave height computed by
`estimate_tsunami`: `base_height * math.exp(-distance / 500)` with the
magnitude-tiered base height. -/
def raw_tsunami_height (eq : EarthquakeParameters) (region : RegionData) : ℝ :=
  (if 8.0 ≤ eq.magnitude then (10 : ℝ)
   else if 7.5 ≤ eq.magnitude then 5
   else 2) *
    exp (-(calculate_distance eq.epicenter_lat eq.epicenter_lon
      region.lat region.lon) / 500)

/-- Shared sample data for the witness theorems. -/
def sampleRegion : RegionData := ⟨"地域A", 34, 135, 500000, 200000, 0.5, true, 4⟩

/-- Shared sample earthquake for the witness theorems. -/
def sampleQuake : EarthquakeParameters := ⟨8, 10, 33, 136⟩

/-- Earthquake used by several concrete counterexamples and witnesses:
magnitude 8, depth 10, epicenter (30, 135). -/
def quakeA : EarthquakeParameters := ⟨8, 10, 30, 135⟩

/-- Coastal region on the epicenter meridian of `quakeA`, four degrees
of latitude away, at sea level. -/
def regB4 : RegionData := ⟨"沿岸4", 34, 135, 100000, 40000, 0.5, true, 0⟩

/-- Coastal region at the epicenter of `sampleQuake`, at sea level. -/
def regZero : RegionData := ⟨"沿岸0", 33, 136, 1000, 1000, 0.5, true, 0⟩

/-- Coastal region at the epicenter of `sampleQuake` on high ground. -/
def highRegion : RegionData := ⟨"高台0", 33, 136, 1000, 1000, 0.5, true, 1000⟩

/-- Coastal region 0.04 degrees of latitude from the epicenter of
`quakeA`, on high ground. -/
def regNear : RegionData := ⟨"近傍", 30.04, 135, 50000, 20000, 0.5, true, 1000⟩

/-- Coastal region on the epicenter meridian of `quakeA`, four degrees
of latitude away, on high ground. -/
def regHigh4 : RegionData := ⟨"高台4", 34, 135, 1000, 1000, 0.5, true, 1000⟩

/-- Zero building damage, used to isolate the tsunami casualties. -/
def bd0 : BuildingDamage := ⟨0, 0, 0, 0⟩

/-- Coastal region 1.1 degrees of latitude from the epicenter of
`quakeA`, at sea level, with one million inhabitants. -/
def regC6 : RegionData := ⟨"沿岸11", 31.1, 135, 1000000, 0, 0.5, true, 0⟩

/-- Coastal region at the epicenter of `sampleQuake`, at sea level,
with one million inhabitants. -/
def regPop : RegionData := ⟨"沿岸P", 33, 136, 1000000, 0, 0.5, true, 0⟩

/-! Helper lemmas about the Python primitives. -/

theorem pyInt_of_nonneg {x : ℝ} (h : 0 ≤ x) : pyInt x = ⌊x⌋ := if_pos h

theorem pyInt_intCast (k : ℤ) : pyInt (k : ℝ) = k := by
  rcases le_or_lt 0 (k : ℝ) with h | h
  · rw [pyInt_of_nonneg h, Int.floor_intCast]
  · rw [pyInt, if_neg (not_le.mpr h), Int.ceil_intCast]

theorem pyInt_nonneg {x : ℝ} (h : 0 ≤ x) : 0 ≤ pyInt x := by
  rw [pyInt_of_nonneg h]
  exact Int.floor_nonneg.mpr h

theorem pyRound_intCast (k : ℤ) : pyRound (k : ℝ) = k := by
  rw [pyRound, Int.fract_intCast, if_pos (by norm_num), Int.floor_intCast]

theorem pyRound_zero : pyRound 0 = 0 := by
  simpa using pyRound_intCast 0

theorem floor_le_pyRound (x : ℝ) : ⌊x⌋ ≤ pyRound x := by
  rw [pyRound]
  split_ifs <;> omega

theorem pyRound_eq_zero {x : ℝ} (h0 : 0 ≤ x) (h1 : x < 1 / 2) : pyRound x = 0 := by
  have hf : ⌊x⌋ = 0 := Int.floor_eq_zero_iff.mpr ⟨h0, by linarith⟩
  have hfr : Int.fract x < 1 / 2 := by
    rw [Int.fract, hf]
    push_cast
    linarith
  rw [pyRound, if_pos hfr, hf]

theorem pyRound_eq_zero_of_half {x : ℝ} (hx : x = 1 / 2) : pyRound x = 0 := by
  have hf : ⌊x⌋ = 0 := Int.floor_eq_zero_iff.mpr ⟨by linarith, by linarith⟩
  have hfr : Int.fract x = 1 / 2 := by
    rw [Int.fract, hf]
    push_cast
    linarith
  rw [pyRound, hfr, if_neg (by norm_num), if_neg (by norm_num),
    if_pos (by rw [hf]; exact even_zero), hf]

theorem pyRound_pos_iff {x : ℝ} (h0 : 0 ≤ x) : 0 < pyRound x ↔ 1 / 2 < x := by
  constructor
  · intro h
    by_contra hx
    push_neg at hx
    rcases lt_or_eq_of_le hx with hx' | hx'
    · rw [pyRound_eq_zero h0 hx'] at h
      exact lt_irrefl 0 h
    · rw [pyRound_eq_zero_of_half hx'] at h
      exact lt_irrefl 0 h
  · intro h
    rcases lt_or_le x 1 with hx | hx
    · have hf : ⌊x⌋ = 0 := Int.floor_eq_zero_iff.mpr ⟨h0, hx⟩
      have hfr : 1 / 2 < Int.fract x := by
        rw [Int.fract, hf]
        push_cast
        linarith
      rw [pyRound, if_neg (not_lt.mpr hfr.le), if_pos hfr, hf]
      norm_num
    · have h1 : (1 : ℤ) ≤ ⌊x⌋ := by
        rw [Int.le_floor]
        exact_mod_cast hx
      have h2 := floor_le_pyRound x
      omega

/-! Helper lemmas about the distance calculation. -/

theorem atan2_nonneg {y x : ℝ} (hy : 0 ≤ y) : 0 ≤ atan2 y x := by
  rw [atan2]
  by_cases h1 : 0 < x
  · rw [if_pos h1]
    have h := arctan_strictMono.monotone (div_nonneg hy h1.le)
    rwa [arctan_zero] at h
  · rw [if_neg h1]
    by_cases h2 : x < 0
    · rw [if_pos h2, if_pos hy]
      have h3 := neg_pi_div_two_lt_arctan (y / x)
      have hp := pi_pos
      linarith
    · rw [if_neg h2]
      by_cases h3 : 0 < y
      · rw [if_pos h3]
        linarith [pi_pos]
      · rw [if_neg h3, if_neg (not_lt.mpr hy)]

theorem calculate_distance_nonneg (lat1 lon1 lat2 lon2 : ℝ) :
    0 ≤ calculate_distance lat1 lon1 lat2 lon2 := by
  rw [calculate_distance]
  have h := atan2_nonneg (x := sqrt (1 - (sin (radians (lat2 - lat1) / 2) ^ 2 +
    cos (radians lat1) * cos (radians lat2) * sin (radians (lon2 - lon1) / 2) ^ 2)))
    (Real.sqrt_nonneg (sin (radians (lat2 - lat1) / 2) ^ 2 +
      cos (radians lat1) * cos (radians lat2) * sin (radians (lon2 - lon1) / 2) ^ 2))
  positivity

theorem calculate_distance_self (lat lon : ℝ) :
    calculate_distance lat lon lat lon = 0 := by
  rw [calculate_distance]
  have hr : radians 0 = 0 := by rw [radians]; ring
  norm_num [hr, atan2, Real.sqrt_one, Real.arctan_zero]

theorem calculate_distance_symm (lat1 lon1 lat2 lon2 : ℝ) :
    calculate_distance lat1 lon1 lat2 lon2 =
      calculate_distance lat2 lon2 lat1 lon1 := by
  rw [calculate_distance, calculate_distance]
  have h1 : radians (lat1 - lat2) / 2 = -(radians (lat2 - lat1) / 2) := by
    rw [radians, radians]; ring
  have h2 : radians (lon1 - lon2) / 2 = -(radians (lon2 - lon1) / 2) := by
    rw [radians, radians]; ring
  rw [h1, h2, Real.sin_neg, Real.sin_neg, neg_sq, neg_sq,
    mul_comm (cos (radians lat2)) (cos (radians lat1))]

/-- On a common meridian the haversine distance reduces to
Earth radius times the latitude difference in radians. -/
theorem calculate_distance_same_lon (lat1 lat2 lon : ℝ)
    (h1 : 0 ≤ lat2 - lat1) (h2 : lat2 - lat1 < 180) :
    calculate_distance lat1 lon lat2 lon = 6371 * radians (lat2 - lat1) := by
  rw [calculate_distance]
  have hsub : lon - lon = 0 := sub_self lon
  rw [hsub]
  have hrad0 : radians 0 = 0 := by rw [radians]; ring
  rw [hrad0]
  norm_num
  set θ := radians (lat2 - lat1) / 2 with hθ
  have hθ0 : 0 ≤ θ := by
    rw [hθ, radians]
    have := pi_pos
    positivity
  have hθπ : θ < π / 2 := by
    rw [hθ, radians]
    have hp := pi_pos
    rw [div_lt_div_iff₀ (by norm_num) (by norm_num)]
    nlinarith
  have hsin : 0 ≤ sin θ := sin_nonneg_of_nonneg_of_le_pi hθ0 (by linarith [pi_pos])
  have hcos : 0 < cos θ := cos_pos_of_mem_Ioo ⟨by linarith [pi_pos], hθπ⟩
  have hs1 : sqrt (sin θ ^ 2) = sin θ := Real.sqrt_sq hsin
  have hs2 : 1 - sin θ ^ 2 = cos θ ^ 2 := by
    have := sin_sq_add_cos_sq θ
    linarith
  have hs3 : sqrt (1 - sin θ ^ 2) = cos θ := by rw [hs2]; exact Real.sqrt_sq hcos.le
  rw [hs1, hs3, atan2, if_pos hcos, ← tan_eq_sin_div_cos,
    arctan_tan (by linarith [pi_pos]) hθπ]
  rw [hθ]
  ring

/-- Truncating at an even half commutes with a prior floor. -/
theorem floor_mul_half_floor (y : ℝ) : ⌊(⌊y⌋ : ℝ) * 0.5⌋ = ⌊y * 0.5⌋ := by
  have hle : (⌊y⌋ : ℝ) ≤ y := Int.floor_le y
  have hlt : y < ⌊y⌋ + 1 := Int.lt_floor_add_one y
  rcases Int.even_or_odd ⌊y⌋ with ⟨m, hm⟩ | ⟨m, hm⟩
  · have hL : ((⌊y⌋ : ℝ)) * 0.5 = (m : ℝ) := by
      rw [hm]; push_cast; ring
    rw [hL, Int.floor_intCast]
    symm
    rw [Int.floor_eq_iff]
    constructor
    · have : ((2 : ℝ)) * m ≤ y := by
        have : ((⌊y⌋ : ℝ)) = 2 * m := by rw [hm]; push_cast; ring
        linarith
      linarith
    · have : y < 2 * m + 1 := by
        have : ((⌊y⌋ : ℝ)) = 2 * m := by rw [hm]; push_cast; ring
        linarith
      linarith
  · have hL : ((⌊y⌋ : ℝ)) * 0.5 = (m : ℝ) + 1 / 2 := by
      rw [hm]; push_cast; ring
    have hfL : ⌊((⌊y⌋ : ℝ)) * 0.5⌋ = m := by
      rw [hL, Int.floor_eq_iff]
      constructor <;> [linarith; linarith]
    rw [hfL]
    symm
    rw [Int.floor_eq_iff]
    have hfl : ((⌊y⌋ : ℝ)) = 2 * m + 1 := by rw [hm]; push_cast; ring
    constructor
    · linarith
    · linarith

/-- Joint facts about the damage-rate table: both rates are
non-negative and `collapse_rate + 1.5 * severe_rate ≤ 1` whenever the
wooden ratio lies in `[0, 1]`. -/
theorem damage_rates_bounds (intensity w : ℝ) (hw0 : 0 ≤ w) (hw1 : w ≤ 1) :
    0 ≤ (damage_rates intensity w).1 ∧ 0 ≤ (damage_rates intensity w).2 ∧
      (damage_rates intensity w).1 + (damage_rates intensity w).2 +
        (damage_rates intensity w).2 * 0.5 ≤ 1 := by
  rw [damage_rates]
  split_ifs <;> refine ⟨?_, ?_, ?_⟩ <;> dsimp only <;> linarith

theorem bd_collapsed (intensity : ℝ) (region : RegionData) :
    (estimate_building_damage intensity region).collapsed =
      pyInt ((region.buildings : ℝ) * (damage_rates intensity region.wooden).1) :=
  rfl

theorem bd_severe (intensity : ℝ) (region : RegionData) :
    (estimate_building_damage intensity region).severe =
      pyInt ((region.buildings : ℝ) * (damage_rates intensity region.wooden).2) :=
  rfl

theorem bd_moderate (intensity : ℝ) (region : RegionData) :
    (estimate_building_damage intensity region).moderate =
      pyInt ((region.buildings : ℝ) * (damage_rates intensity region.wooden).2 * 0.5) :=
  rfl

theorem bd_undamaged (intensity : ℝ) (region : RegionData) :
    (estimate_building_damage intensity region).undamaged =
      region.buildings -
        pyInt ((region.buildings : ℝ) * (damage_rates intensity region.wooden).1) -
        pyInt ((region.buildings : ℝ) * (damage_rates intensity region.wooden).2) -
        pyInt ((region.buildings : ℝ) * (damage_rates intensity region.wooden).2 * 0.5) :=
  rfl

theorem tsunami_arrival_coastal (eq : EarthquakeParameters)
    (region : RegionData) (hc : region.coastal = true) :
    (estimate_tsunami eq region).arrival =
      round0 (calculate_distance eq.epicenter_lat eq.epicenter_lon
        region.lat region.lon / 12) := by
  rw [estimate_tsunami, hc]
  simp only [Bool.not_true, Bool.false_eq_true, if_false]

theorem tsunami_protected_zero (eq : EarthquakeParameters)
    (region : RegionData) (hc : region.coastal = true)
    (he : raw_tsunami_height eq region < region.elevation) :
    (estimate_tsunami eq region).height = 0 ∧
      (estimate_tsunami eq region).inundation = 0 := by
  rw [raw_tsunami_height] at he
  rw [estimate_tsunami, hc]
  simp only [Bool.not_true, Bool.false_eq_true, if_false]
  rw [if_pos he]
  constructor
  · show round1 0 = 0
    rw [round1]
    norm_num [pyRound_zero]
  · show (if (0 : ℝ) > 5 then (0.3 : ℝ)
      else if (0 : ℝ) > 2 then 0.15
      else if (0 : ℝ) > 0 then 0.05
      else 0) = 0
    norm_num

theorem pyInt_zero : pyInt 0 = 0 := by
  rw [pyInt_of_nonneg le_rfl]
  exact Int.floor_zero

theorem round0_zero : round0 0 = 0 := by
  rw [round0, pyRound_zero]
  norm_num

theorem round1_ten : round1 10 = 10 := by
  have h : (10 : ℝ) * 10 = ((100 : ℤ) : ℝ) := by norm_num
  rw [round1, h, pyRound_intCast]
  norm_num

/-- Unfolding of `estimate_tsunami` for a coastal region that the
elevation check does not protect. -/
theorem tsunami_unprotected (eq : EarthquakeParameters) (region : RegionData)
    (hc : region.coastal = true)
    (he : region.elevation ≤ raw_tsunami_height eq region) :
    estimate_tsunami eq region =
      ⟨round1 (raw_tsunami_height eq region),
       round0 (calculate_distance eq.epicenter_lat eq.epicenter_lon
         region.lat region.lon / 12),
       if raw_tsunami_height eq region > 5 then 0.3
       else if raw_tsunami_height eq region > 2 then 0.15
       else if raw_tsunami_height eq region > 0 then 0.05
       else 0⟩ := by
  rw [raw_tsunami_height] at he ⊢
  rw [estimate_tsunami, hc]
  simp only [Bool.not_true, Bool.false_eq_true, if_false]
  rw [if_neg (not_lt.mpr he)]

/-- Unfolding of `estimate_casualties` when the tsunami height is
positive. -/
theorem casualties_pos_height (intensity : ℝ) (bd : BuildingDamage)
    (ts : TsunamiResult) (region : RegionData) (h : 0 < ts.height) :
    estimate_casualties intensity bd ts region =
      ⟨pyInt ((bd.collapsed : ℝ) * 0.01) +
        pyInt (if ts.height > 2
          then (pyInt ((region.population : ℝ) * ts.inundation) : ℝ) *
            (1 - min 0.8 (ts.arrival / 60)) * 0.1
          else (pyInt ((region.population : ℝ) * ts.inundation) : ℝ) *
            (1 - min 0.8 (ts.arrival / 60)) * 0.02),
       pyInt (((pyInt (((bd.collapsed + bd.severe : ℤ) : ℝ) * 0.05) +
         pyInt ((pyInt ((region.population : ℝ) * ts.inundation) : ℝ) *
           (1 - min 0.8 (ts.arrival / 60)) * 0.2) : ℤ) : ℝ) * 0.3),
       pyInt (((pyInt (((bd.collapsed + bd.severe : ℤ) : ℝ) * 0.05) +
         pyInt ((pyInt ((region.population : ℝ) * ts.inundation) : ℝ) *
           (1 - min 0.8 (ts.arrival / 60)) * 0.2) : ℤ) : ℝ) * 0.7)⟩ := by
  simp only [estimate_casualties]
  rw [if_pos h]

/-! Claim theorems. -/

/-- C1: for every region with `buildings ≥ 0` and wooden ratio in `[0,1]`
and every intensity, `estimate_building_damage` returns four non-negative
counts whose sum is exactly the region's building count. -/
theorem C1_building_damage_partition (intensity : ℝ) (region : RegionData)
    (hb : 0 ≤ region.buildings) (hw0 : 0 ≤ region.wooden)
    (hw1 : region.wooden ≤ 1) :
    0 ≤ (estimate_building_damage intensity region).collapsed ∧
    0 ≤ (estimate_building_damage intensity region).severe ∧
    0 ≤ (estimate_building_damage intensity region).moderate ∧
    0 ≤ (estimate_building_damage intensity region).undamaged ∧
    (estimate_building_damage intensity region).collapsed +
      (estimate_building_damage intensity region).severe +
      (estimate_building_damage intensity region).moderate +
      (estimate_building_damage intensity region).undamaged =
      region.buildings := by
  obtain ⟨hc, hs, hcs⟩ := damage_rates_bounds intensity region.wooden hw0 hw1
  have hbR : (0 : ℝ) ≤ (region.buildings : ℝ) := by exact_mod_cast hb
  have h1 : 0 ≤ (region.buildings : ℝ) * (damage_rates intensity region.wooden).1 :=
    mul_nonneg hbR hc
  have h2 : 0 ≤ (region.buildings : ℝ) * (damage_rates intensity region.wooden).2 :=
    mul_nonneg hbR hs
  have h3 : 0 ≤ (region.buildings : ℝ) * (damage_rates intensity region.wooden).2 * 0.5 :=
    mul_nonneg h2 (by norm_num)
  rw [bd_collapsed, bd_severe, bd_moderate, bd_undamaged,
    pyInt_of_nonneg h1, pyInt_of_nonneg h2, pyInt_of_nonneg h3]
  have f1 := Int.floor_le ((region.buildings : ℝ) * (damage_rates intensity region.wooden).1)
  have f2 := Int.floor_le ((region.buildings : ℝ) * (damage_rates intensity region.wooden).2)
  have f3 := Int.floor_le ((region.buildings : ℝ) * (damage_rates intensity region.wooden).2 * 0.5)
  have hmul := mul_le_mul_of_nonneg_left hcs hbR
  have hsumR : (⌊(region.buildings : ℝ) * (damage_rates intensity region.wooden).1⌋ : ℝ) +
      (⌊(region.buildings : ℝ) * (damage_rates intensity region.wooden).2⌋ : ℝ) +
      (⌊(region.buildings : ℝ) * (damage_rates intensity region.wooden).2 * 0.5⌋ : ℝ) ≤
      (region.buildings : ℝ) := by nlinarith
  have hsumZ : ⌊(region.buildings : ℝ) * (damage_rates intensity region.wooden).1⌋ +
      ⌊(region.buildings : ℝ) * (damage_rates intensity region.wooden).2⌋ +
      ⌊(region.buildings : ℝ) * (damage_rates intensity region.wooden).2 * 0.5⌋ ≤
      region.buildings := by exact_mod_cast hsumR
  refine ⟨Int.floor_nonneg.mpr h1, Int.floor_nonneg.mpr h2,
    Int.floor_nonneg.mpr h3, by omega, by ring⟩

theorem C1_witness :
    0 ≤ (estimate_building_damage 6.7 sampleRegion).collapsed ∧
    0 ≤ (estimate_building_damage 6.7 sampleRegion).severe ∧
    0 ≤ (estimate_building_damage 6.7 sampleRegion).moderate ∧
    0 ≤ (estimate_building_damage 6.7 sampleRegion).undamaged ∧
    (estimate_building_damage 6.7 sampleRegion).collapsed +
      (estimate_building_damage 6.7 sampleRegion).severe +
      (estimate_building_damage 6.7 sampleRegion).moderate +
      (estimate_building_damage 6.7 sampleRegion).undamaged =
      sampleRegion.buildings :=
  C1_building_damage_partition 6.7 sampleRegion (by norm_num [sampleRegion])
    (by norm_num [sampleRegion]) (by norm_num [sampleRegion])

/-- C2: for every earthquake with parameters in the documented input
ranges and every region, the seismic intensity lies in `[0, 7]`. -/
theorem C2_intensity_clamped (eq : EarthquakeParameters) (region : RegionData)
    (hm1 : 7 ≤ eq.magnitude) (hm2 : eq.magnitude ≤ 9)
    (hd1 : 5 ≤ eq.depth) (hd2 : eq.depth ≤ 50)
    (hla1 : 30 ≤ eq.epicenter_lat) (hla2 : eq.epicenter_lat ≤ 36)
    (hlo1 : 130 ≤ eq.epicenter_lon) (hlo2 : eq.epicenter_lon ≤ 140) :
    0 ≤ calculate_seismic_intensity eq region ∧
      calculate_seismic_intensity eq region ≤ 7 := by
  simp only [calculate_seismic_intensity]
  exact ⟨le_min (by norm_num) (le_max_left 0 _), min_le_left 7 _⟩

theorem C2_witness :
    0 ≤ calculate_seismic_intensity sampleQuake sampleRegion ∧
      calculate_seismic_intensity sampleQuake sampleRegion ≤ 7 :=
  C2_intensity_clamped sampleQuake sampleRegion (by norm_num [sampleQuake])
    (by norm_num [sampleQuake]) (by norm_num [sampleQuake])
    (by norm_num [sampleQuake]) (by norm_num [sampleQuake])
    (by norm_num [sampleQuake]) (by norm_num [sampleQuake])
    (by norm_num [sampleQuake])

/-- C4: the moderate-damage count equals `int(0.5 * severe)` computed from
the returned severe count, for every region with non-negative building
count and wooden ratio in `[0,1]` and every intensity. -/
theorem C4_moderate_is_half_severe (intensity : ℝ) (region : RegionData)
    (hb : 0 ≤ region.buildings) (hw0 : 0 ≤ region.wooden)
    (hw1 : region.wooden ≤ 1) :
    (estimate_building_damage intensity region).moderate =
      pyInt (0.5 * ((estimate_building_damage intensity region).severe : ℝ)) := by
  obtain ⟨-, hs, -⟩ := damage_rates_bounds intensity region.wooden hw0 hw1
  have hbR : (0 : ℝ) ≤ (region.buildings : ℝ) := by exact_mod_cast hb
  have h2 : 0 ≤ (region.buildings : ℝ) * (damage_rates intensity region.wooden).2 :=
    mul_nonneg hbR hs
  have h3 : 0 ≤ (region.buildings : ℝ) * (damage_rates intensity region.wooden).2 * 0.5 :=
    mul_nonneg h2 (by norm_num)
  rw [bd_moderate, bd_severe, pyInt_of_nonneg h3, pyInt_of_nonneg h2]
  have h4 : 0 ≤ 0.5 * ((⌊(region.buildings : ℝ) * (damage_rates intensity region.wooden).2⌋ : ℤ) : ℝ) := by
    have h5 : (0 : ℝ) ≤ ((⌊(region.buildings : ℝ) * (damage_rates intensity region.wooden).2⌋ : ℤ) : ℝ) := by
      exact_mod_cast Int.floor_nonneg.mpr h2
    linarith
  rw [pyInt_of_nonneg h4, mul_comm (0.5 : ℝ)]
  exact (floor_mul_half_floor ((region.buildings : ℝ) * (damage_rates intensity region.wooden).2)).symm

theorem C4_witness :
    (estimate_building_damage 7.2 sampleRegion).moderate =
      pyInt (0.5 * ((estimate_building_damage 7.2 sampleRegion).severe : ℝ)) :=
  C4_moderate_is_half_severe 7.2 sampleRegion (by norm_num [sampleRegion])
    (by norm_num [sampleRegion]) (by norm_num [sampleRegion])

/-- C5: at a fixed region, depth in `[5, 50]` and fixed epicenter, the
seismic intensity is monotonically non-decreasing in the magnitude. -/
theorem C5_intensity_monotone (m1 m2 depth lat lon : ℝ) (region : RegionData)
    (hd1 : 5 ≤ depth) (hd2 : depth ≤ 50) (hm : m1 ≤ m2) :
    calculate_seismic_intensity ⟨m1, depth, lat, lon⟩ region ≤
      calculate_seismic_intensity ⟨m2, depth, lat, lon⟩ region := by
  simp only [calculate_seismic_intensity]
  refine min_le_min le_rfl (max_le_max le_rfl ?_)
  have hf : 0 ≤ 1 - depth / 100 * 0.3 := by linarith
  exact mul_le_mul_of_nonneg_right (by linarith) hf

theorem C5_witness :
    calculate_seismic_intensity ⟨7, 10, 33, 136⟩ sampleRegion ≤
      calculate_seismic_intensity ⟨8, 10, 33, 136⟩ sampleRegion :=
  C5_intensity_monotone 7 8 10 33 136 sampleRegion (by norm_num) (by norm_num)
    (by norm_num)

/-- C8: `simulate` is deterministic — two invocations on the same
simulator state (region list) with identical parameters produce
identical result tables. -/
theorem C8_simulate_deterministic (regions : List RegionData)
    (eq : EarthquakeParameters) (r1 r2 : List ResultRow)
    (h1 : r1 = simulate regions eq) (h2 : r2 = simulate regions eq) :
    r1 = r2 :=
  h1.trans h2.symm

theorem C8_witness :
    simulate nankai_regions ⟨8.7, 10, 33, 136⟩ =
      simulate nankai_regions ⟨8.7, 10, 33, 136⟩ :=
  C8_simulate_deterministic nankai_regions ⟨8.7, 10, 33, 136⟩ _ _ rfl rfl

/-- C3 counterexample: `estimate_tsunami` rounds the returned arrival
time (`round(arrival_time, 0)`), so for a coastal, unprotected region
whose distance to the epicenter makes `distance / 12` non-integral
(here an irrational multiple of π) the returned arrival time differs
from `distance / 12`, contradicting the claim. -/
theorem C3_counterexample :
    regB4.coastal = true ∧
    regB4.elevation ≤ 10 * exp (-(calculate_distance 30 135 34 135) / 500) ∧
    (estimate_tsunami quakeA regB4).arrival ≠
      calculate_distance 30 135 34 135 / 12 := by
  have hd : calculate_distance 30 135 34 135 = 6371 * radians (34 - 30) :=
    calculate_distance_same_lon 30 34 135 (by norm_num) (by norm_num)
  refine ⟨rfl, ?_, ?_⟩
  · show (0 : ℝ) ≤ 10 * exp (-(calculate_distance 30 135 34 135) / 500)
    positivity
  · have harr := tsunami_arrival_coastal quakeA regB4 rfl
    have hproj : calculate_distance quakeA.epicenter_lat quakeA.epicenter_lon
        regB4.lat regB4.lon = calculate_distance 30 135 34 135 := rfl
    rw [hproj] at harr
    have hirr : Irrational (calculate_distance 30 135 34 135 / 12) := by
      rw [hd, radians]
      have h36 : (6371 : ℝ) * ((34 - 30) * π / 180) / 12 =
          ((6371 * 4 / 2160 : ℚ) : ℝ) * π := by
        push_cast
        ring
      rw [h36]
      exact irrational_pi.rat_mul (by norm_num)
    rw [harr, round0]
    exact fun h => hirr.ne_int
      (pyRound (calculate_distance 30 135 34 135 / 12)) h.symm

/-- C3 amended: for every coastal region whose elevation does not exceed
the raw wave height, `estimate_tsunami` returns the raw height
`base_height * exp(-distance/500)` rounded to one decimal, and the
arrival time `distance / 12` rounded to an integral value. -/
theorem C3_tsunami_formula_rounded (eq : EarthquakeParameters)
    (region : RegionData) (hc : region.coastal = true)
    (he : region.elevation ≤ raw_tsunami_height eq region) :
    (estimate_tsunami eq region).height =
      round1 (raw_tsunami_height eq region) ∧
    (estimate_tsunami eq region).arrival =
      round0 (calculate_distance eq.epicenter_lat eq.epicenter_lon
        region.lat region.lon / 12) := by
  rw [raw_tsunami_height] at he ⊢
  rw [estimate_tsunami, hc]
  simp only [Bool.not_true, Bool.false_eq_true, if_false]
  rw [if_neg (not_lt.mpr he)]
  exact ⟨rfl, trivial⟩

theorem C3_witness :
    (estimate_tsunami sampleQuake regZero).height =
      round1 (raw_tsunami_height sampleQuake regZero) ∧
    (estimate_tsunami sampleQuake regZero).arrival =
      round0 (calculate_distance sampleQuake.epicenter_lat
        sampleQuake.epicenter_lon regZero.lat regZero.lon / 12) :=
  C3_tsunami_formula_rounded sampleQuake regZero rfl (by
    rw [raw_tsunami_height]
    show (0 : ℝ) ≤ _
    positivity)

/-- C7: for every coastal region whose elevation strictly exceeds the
raw exponential wave height, the returned tsunami height is exactly 0
and hence the inundation fraction is 0. -/
theorem C7_elevation_protects (eq : EarthquakeParameters)
    (region : RegionData) (hc : region.coastal = true)
    (he : raw_tsunami_height eq region < region.elevation) :
    (estimate_tsunami eq region).height = 0 ∧
      (estimate_tsunami eq region).inundation = 0 :=
  tsunami_protected_zero eq region hc he

theorem C7_witness :
    (estimate_tsunami sampleQuake highRegion).height = 0 ∧
      (estimate_tsunami sampleQuake highRegion).inundation = 0 :=
  C7_elevation_protects sampleQuake highRegion rfl (by
    rw [raw_tsunami_height]
    have hd : calculate_distance sampleQuake.epicenter_lat
        sampleQuake.epicenter_lon highRegion.lat highRegion.lon = 0 :=
      calculate_distance_self 33 136
    rw [hd]
    norm_num [sampleQuake, highRegion, Real.exp_zero])

/-- C10 counterexample: a coastal region whose height is forced to zero
by the elevation check and whose distance to the epicenter is positive
but below 6 km gets arrival time `round(distance/12, 0) = 0`, so the
all-zero tsunami result is also returned for a coastal region,
contradicting both parts of the claim. -/
theorem C10_counterexample :
    regNear.coastal = true ∧
    raw_tsunami_height quakeA regNear < regNear.elevation ∧
    0 < calculate_distance 30 135 30.04 135 ∧
    estimate_tsunami quakeA regNear = ⟨0, 0, 0⟩ := by
  have hd : calculate_distance 30 135 30.04 135 = 6371 * radians (30.04 - 30) :=
    calculate_distance_same_lon 30 30.04 135 (by norm_num) (by norm_num)
  have hd' : calculate_distance 30 135 30.04 135 = 6371 * (0.04 * π / 180) := by
    rw [hd, radians]
    norm_num
  have hdlo : (4.4 : ℝ) < calculate_distance 30 135 30.04 135 := by
    rw [hd']
    nlinarith [pi_gt_d2]
  have hdhi : calculate_distance 30 135 30.04 135 < 4.5 := by
    rw [hd']
    nlinarith [pi_lt_d2]
  have hproj : calculate_distance quakeA.epicenter_lat quakeA.epicenter_lon
      regNear.lat regNear.lon = calculate_distance 30 135 30.04 135 := rfl
  have hraw : raw_tsunami_height quakeA regNear < regNear.elevation := by
    rw [raw_tsunami_height, hproj]
    have hexp : exp (-(calculate_distance 30 135 30.04 135) / 500) ≤ 1 :=
      exp_le_one_iff.mpr (by linarith)
    have hexp0 := exp_pos (-(calculate_distance 30 135 30.04 135) / 500)
    have helev : regNear.elevation = 1000 := rfl
    rw [helev]
    split_ifs <;> nlinarith
  obtain ⟨hh, hi⟩ := tsunami_protected_zero quakeA regNear rfl hraw
  have ha : (estimate_tsunami quakeA regNear).arrival = 0 := by
    rw [tsunami_arrival_coastal quakeA regNear rfl, hproj, round0,
      pyRound_eq_zero (by linarith) (by linarith)]
    norm_num
  refine ⟨rfl, hraw, by linarith, ?_⟩
  have hs : estimate_tsunami quakeA regNear =
      ⟨(estimate_tsunami quakeA regNear).height,
       (estimate_tsunami quakeA regNear).arrival,
       (estimate_tsunami quakeA regNear).inundation⟩ := rfl
  rw [hs, hh, hi, ha]

/-- C10 amended: for every coastal region whose wave height is forced to
zero by the elevation check, `estimate_tsunami` returns height 0 and
inundation 0 but arrival time `round(distance/12, 0)`, which is positive
exactly when the distance exceeds 6 km; thus the all-zero result also
occurs for coastal protected regions within 6 km of the epicenter. -/
theorem C10_protected_arrival (eq : EarthquakeParameters)
    (region : RegionData) (hc : region.coastal = true)
    (he : raw_tsunami_height eq region < region.elevation) :
    (estimate_tsunami eq region).height = 0 ∧
    (estimate_tsunami eq region).inundation = 0 ∧
    (estimate_tsunami eq region).arrival =
      round0 (calculate_distance eq.epicenter_lat eq.epicenter_lon
        region.lat region.lon / 12) ∧
    (0 < (estimate_tsunami eq region).arrival ↔
      6 < calculate_distance eq.epicenter_lat eq.epicenter_lon
        region.lat region.lon) := by
  obtain ⟨hh, hi⟩ := tsunami_protected_zero eq region hc he
  have ha := tsunami_arrival_coastal eq region hc
  have hd0 := calculate_distance_nonneg eq.epicenter_lat eq.epicenter_lon
    region.lat region.lon
  refine ⟨hh, hi, ha, ?_⟩
  rw [ha, round0]
  have hcast : (0 : ℝ) < (pyRound (calculate_distance eq.epicenter_lat
      eq.epicenter_lon region.lat region.lon / 12) : ℝ) ↔
      0 < pyRound (calculate_distance eq.epicenter_lat eq.epicenter_lon
        region.lat region.lon / 12) := by
    exact_mod_cast Iff.rfl
  rw [hcast, pyRound_pos_iff (div_nonneg hd0 (by norm_num))]
  constructor <;> intro h <;> linarith

theorem C10_witness :
    (estimate_tsunami quakeA regHigh4).height = 0 ∧
    (estimate_tsunami quakeA regHigh4).inundation = 0 ∧
    (estimate_tsunami quakeA regHigh4).arrival =
      round0 (calculate_distance quakeA.epicenter_lat quakeA.epicenter_lon
        regHigh4.lat regHigh4.lon / 12) ∧
    (0 < (estimate_tsunami quakeA regHigh4).arrival ↔
      6 < calculate_distance quakeA.epicenter_lat quakeA.epicenter_lon
        regHigh4.lat regHigh4.lon) :=
  C10_protected_arrival quakeA regHigh4 rfl (by
    rw [raw_tsunami_height]
    have hd0 := calculate_distance_nonneg quakeA.epicenter_lat
      quakeA.epicenter_lon regHigh4.lat regHigh4.lon
    have hexp : exp (-(calculate_distance quakeA.epicenter_lat
        quakeA.epicenter_lon regHigh4.lat regHigh4.lon) / 500) ≤ 1 :=
      exp_le_one_iff.mpr (by linarith)
    have hexp0 := exp_pos (-(calculate_distance quakeA.epicenter_lat
      quakeA.epicenter_lon regHigh4.lat regHigh4.lon) / 500)
    have helev : regHigh4.elevation = 1000 := rfl
    rw [helev]
    split_ifs <;> nlinarith)

/-- C6 counterexample: `estimate_casualties` computes the evacuation
rate from the ROUNDED arrival time of the tsunami dictionary, not from
`distance/12`.  Here `distance/12 ≈ 10.19` rounds to 10, the code
returns 25000 tsunami deaths, while the claimed formula (evacuation
rate `min(0.8, (distance/12)/60)`) yields 24903. -/
theorem C6_counterexample :
    0 < (estimate_tsunami quakeA regC6).height ∧
    (estimate_casualties 6 bd0 (estimate_tsunami quakeA regC6) regC6).deaths ≠
      pyInt ((bd0.collapsed : ℝ) * 0.01) +
        pyInt ((pyInt ((regC6.population : ℝ) *
            (estimate_tsunami quakeA regC6).inundation) : ℝ) *
          (1 - min 0.8 (calculate_distance 30 135 31.1 135 / 12 / 60)) * 0.1) := by
  have hd' : calculate_distance 30 135 31.1 135 = 6371 * (1.1 * π / 180) := by
    rw [calculate_distance_same_lon 30 31.1 135 (by norm_num) (by norm_num),
      radians]
    norm_num
  have hdlo : (122.31 : ℝ) < calculate_distance 30 135 31.1 135 := by
    rw [hd']
    nlinarith [pi_gt_d6]
  have hdhi : calculate_distance 30 135 31.1 135 < 122.32 := by
    rw [hd']
    nlinarith [pi_lt_d6]
  have hproj : calculate_distance quakeA.epicenter_lat quakeA.epicenter_lon
      regC6.lat regC6.lon = calculate_distance 30 135 31.1 135 := rfl
  have hraw : raw_tsunami_height quakeA regC6 =
      10 * exp (-(calculate_distance 30 135 31.1 135) / 500) := by
    rw [raw_tsunami_height, hproj,
      if_pos (show (8.0 : ℝ) ≤ quakeA.magnitude by norm_num [quakeA])]
  have hl2 := log_two_gt_d9
  have hexp_half : (1 / 2 : ℝ) <
      exp (-(calculate_distance 30 135 31.1 135) / 500) := by
    have h1 : -log 2 < -(calculate_distance 30 135 31.1 135) / 500 := by
      linarith
    calc (1 / 2 : ℝ) = exp (-log 2) := by
          rw [exp_neg, exp_log (by norm_num : (0 : ℝ) < 2)]
          norm_num
      _ < exp (-(calculate_distance 30 135 31.1 135) / 500) :=
          exp_lt_exp.mpr h1
  have hraw5 : 5 < raw_tsunami_height quakeA regC6 := by
    rw [hraw]
    linarith
  have he0 : regC6.elevation ≤ raw_tsunami_height quakeA regC6 := by
    have h : regC6.elevation = 0 := rfl
    rw [h]
    linarith
  have hts := tsunami_unprotected quakeA regC6 rfl he0
  have hheight : (estimate_tsunami quakeA regC6).height =
      round1 (raw_tsunami_height quakeA regC6) := by rw [hts]
  have hinund : (estimate_tsunami quakeA regC6).inundation = 0.3 := by
    rw [hts]
    show (if raw_tsunami_height quakeA regC6 > 5 then (0.3 : ℝ)
      else if raw_tsunami_height quakeA regC6 > 2 then 0.15
      else if raw_tsunami_height quakeA regC6 > 0 then 0.05 else 0) = 0.3
    rw [if_pos hraw5]
  have hfl : ⌊calculate_distance 30 135 31.1 135 / 12⌋ = 10 := by
    rw [Int.floor_eq_iff]
    constructor
    · push_cast
      linarith
    · push_cast
      linarith
  have hfr : Int.fract (calculate_distance 30 135 31.1 135 / 12) < 1 / 2 := by
    rw [Int.fract, hfl]
    push_cast
    linarith
  have harr' : (estimate_tsunami quakeA regC6).arrival = 10 := by
    rw [hts]
    show round0 (calculate_distance quakeA.epicenter_lat quakeA.epicenter_lon
      regC6.lat regC6.lon / 12) = 10
    rw [hproj, round0, pyRound, if_pos hfr, hfl]
    norm_num
  have hh49 : (4.9 : ℝ) < round1 (raw_tsunami_height quakeA regC6) := by
    rw [round1]
    have h1 : raw_tsunami_height quakeA regC6 * 10 - 1 <
        (⌊raw_tsunami_height quakeA regC6 * 10⌋ : ℝ) := Int.sub_one_lt_floor _
    have h2 : (⌊raw_tsunami_height quakeA regC6 * 10⌋ : ℝ) ≤
        (pyRound (raw_tsunami_height quakeA regC6 * 10) : ℝ) := by
      exact_mod_cast floor_le_pyRound _
    linarith
  have hpos : 0 < (estimate_tsunami quakeA regC6).height := by
    rw [hheight]
    linarith
  refine ⟨hpos, ?_⟩
  have hLHS : (estimate_casualties 6 bd0 (estimate_tsunami quakeA regC6)
      regC6).deaths = 25000 := by
    rw [casualties_pos_height 6 bd0 (estimate_tsunami quakeA regC6) regC6 hpos]
    dsimp only
    rw [if_pos (show (estimate_tsunami quakeA regC6).height > 2 by
      rw [hheight]; linarith)]
    rw [hinund, harr', show regC6.population = 1000000 from rfl,
      show bd0.collapsed = (0 : ℤ) from rfl]
    have hmin : min (0.8 : ℝ) (10 / 60) = 10 / 60 := min_eq_right (by norm_num)
    rw [hmin]
    have e2 : ((1000000 : ℤ) : ℝ) * 0.3 = ((300000 : ℤ) : ℝ) := by
      push_cast
      norm_num
    rw [e2, pyInt_intCast]
    have e3 : ((300000 : ℤ) : ℝ) * (1 - (10 : ℝ) / 60 ) * 0.1 =
        ((25000 : ℤ) : ℝ) := by
      push_cast
      norm_num
    rw [e3, pyInt_intCast]
    have e4 : ((0 : ℤ) : ℝ) * 0.01 = ((0 : ℤ) : ℝ) := by
      push_cast
      norm_num
    rw [e4, pyInt_intCast]
    norm_num
  have hRHS : pyInt ((bd0.collapsed : ℝ) * 0.01) +
      pyInt ((pyInt ((regC6.population : ℝ) *
          (estimate_tsunami quakeA regC6).inundation) : ℝ) *
        (1 - min 0.8 (calculate_distance 30 135 31.1 135 / 12 / 60)) * 0.1) =
      24903 := by
    rw [hinund, show regC6.population = 1000000 from rfl,
      show bd0.collapsed = (0 : ℤ) from rfl]
    have e2 : ((1000000 : ℤ) : ℝ) * 0.3 = ((300000 : ℤ) : ℝ) := by
      push_cast
      norm_num
    rw [e2, pyInt_intCast]
    have hmin : min (0.8 : ℝ)
        (calculate_distance 30 135 31.1 135 / 12 / 60) =
        calculate_distance 30 135 31.1 135 / 12 / 60 :=
      min_eq_right (by linarith)
    rw [hmin]
    have hv0 : (0 : ℝ) ≤ ((300000 : ℤ) : ℝ) *
        (1 - calculate_distance 30 135 31.1 135 / 12 / 60) * 0.1 := by
      push_cast
      nlinarith
    rw [pyInt_of_nonneg hv0]
    have hfl2 : ⌊((300000 : ℤ) : ℝ) *
        (1 - calculate_distance 30 135 31.1 135 / 12 / 60) * 0.1⌋ = 24903 := by
      rw [Int.floor_eq_iff]
      constructor
      · push_cast
        nlinarith
      · push_cast
        nlinarith
    rw [hfl2]
    have e4 : ((0 : ℤ) : ℝ) * 0.01 = ((0 : ℤ) : ℝ) := by
      push_cast
      norm_num
    rw [e4, pyInt_intCast]
    norm_num
  rw [hLHS, hRHS]
  decide

/-- C6 amended: for every coastal region and tsunami result with
positive returned height, the casualty figures follow the claimed
formulas except that the evacuation rate uses the ROUNDED arrival time
`round(distance/12, 0)` (the value stored in the tsunami dictionary),
not `distance/12` itself. -/
theorem C6_casualty_formulas (intensity : ℝ) (bd : BuildingDamage)
    (eq : EarthquakeParameters) (region : RegionData)
    (hc : region.coastal = true)
    (h : 0 < (estimate_tsunami eq region).height) :
    (estimate_casualties intensity bd (estimate_tsunami eq region)
        region).deaths =
      pyInt ((bd.collapsed : ℝ) * 0.01) +
        pyInt (if (estimate_tsunami eq region).height > 2
          then (pyInt ((region.population : ℝ) *
              (estimate_tsunami eq region).inundation) : ℝ) *
            (1 - min 0.8 (round0 (calculate_distance eq.epicenter_lat
              eq.epicenter_lon region.lat region.lon / 12) / 60)) * 0.1
          else (pyInt ((region.population : ℝ) *
              (estimate_tsunami eq region).inundation) : ℝ) *
            (1 - min 0.8 (round0 (calculate_distance eq.epicenter_lat
              eq.epicenter_lon region.lat region.lon / 12) / 60)) * 0.02) ∧
    (estimate_casualties intensity bd (estimate_tsunami eq region)
        region).serious =
      pyInt (((pyInt (((bd.collapsed + bd.severe : ℤ) : ℝ) * 0.05) +
        pyInt ((pyInt ((region.population : ℝ) *
            (estimate_tsunami eq region).inundation) : ℝ) *
          (1 - min 0.8 (round0 (calculate_distance eq.epicenter_lat
            eq.epicenter_lon region.lat region.lon / 12) / 60)) * 0.2) :
          ℤ) : ℝ) * 0.3) ∧
    (estimate_casualties intensity bd (estimate_tsunami eq region)
        region).minor =
      pyInt (((pyInt (((bd.collapsed + bd.severe : ℤ) : ℝ) * 0.05) +
        pyInt ((pyInt ((region.population : ℝ) *
            (estimate_tsunami eq region).inundation) : ℝ) *
          (1 - min 0.8 (round0 (calculate_distance eq.epicenter_lat
            eq.epicenter_lon region.lat region.lon / 12) / 60)) * 0.2) :
          ℤ) : ℝ) * 0.7) := by
  have harr := tsunami_arrival_coastal eq region hc
  rw [casualties_pos_height intensity bd (estimate_tsunami eq region) region h,
    harr]
  exact ⟨rfl, rfl, rfl⟩

theorem tsunami_regPop : estimate_tsunami sampleQuake regPop = ⟨10, 0, 0.3⟩ := by
  have he : regPop.elevation ≤ raw_tsunami_height sampleQuake regPop := by
    rw [raw_tsunami_height]
    show (0 : ℝ) ≤ _
    positivity
  rw [tsunami_unprotected sampleQuake regPop rfl he]
  have hd : calculate_distance sampleQuake.epicenter_lat
      sampleQuake.epicenter_lon regPop.lat regPop.lon = 0 :=
    calculate_distance_self 33 136
  have hraw : raw_tsunami_height sampleQuake regPop = 10 := by
    rw [raw_tsunami_height, hd]
    norm_num [sampleQuake]
  rw [hraw, hd]
  norm_num [round1_ten, round0_zero]

theorem C6_witness :
    (estimate_casualties 6 bd0 (estimate_tsunami sampleQuake regPop)
        regPop).deaths =
      pyInt ((bd0.collapsed : ℝ) * 0.01) +
        pyInt (if (estimate_tsunami sampleQuake regPop).height > 2
          then (pyInt ((regPop.population : ℝ) *
              (estimate_tsunami sampleQuake regPop).inundation) : ℝ) *
            (1 - min 0.8 (round0 (calculate_distance sampleQuake.epicenter_lat
              sampleQuake.epicenter_lon regPop.lat regPop.lon / 12) / 60)) * 0.1
          else (pyInt ((regPop.population : ℝ) *
              (estimate_tsunami sampleQuake regPop).inundation) : ℝ) *
            (1 - min 0.8 (round0 (calculate_distance sampleQuake.epicenter_lat
              sampleQuake.epicenter_lon regPop.lat regPop.lon / 12) / 60)) *
              0.02) ∧
    (estimate_casualties 6 bd0 (estimate_tsunami sampleQuake regPop)
        regPop).serious =
      pyInt (((pyInt (((bd0.collapsed + bd0.severe : ℤ) : ℝ) * 0.05) +
        pyInt ((pyInt ((regPop.population : ℝ) *
            (estimate_tsunami sampleQuake regPop).inundation) : ℝ) *
          (1 - min 0.8 (round0 (calculate_distance sampleQuake.epicenter_lat
            sampleQuake.epicenter_lon regPop.lat regPop.lon / 12) / 60)) *
            0.2) : ℤ) : ℝ) * 0.3) ∧
    (estimate_casualties 6 bd0 (estimate_tsunami sampleQuake regPop)
        regPop).minor =
      pyInt (((pyInt (((bd0.collapsed + bd0.severe : ℤ) : ℝ) * 0.05) +
        pyInt ((pyInt ((regPop.population : ℝ) *
            (estimate_tsunami sampleQuake regPop).inundation) : ℝ) *
          (1 - min 0.8 (round0 (calculate_distance sampleQuake.epicenter_lat
            sampleQuake.epicenter_lon regPop.lat regPop.lon / 12) / 60)) *
            0.2) : ℤ) : ℝ) * 0.7) :=
  C6_casualty_formulas 6 bd0 sampleQuake regPop rfl (by
    rw [tsunami_regPop]
    norm_num)

/-- C9: the great-circle distance is symmetric in its two coordinate
pairs, and the distance from a point to itself is zero. -/
theorem C9_distance_symm_and_self :
    ∀ lat1 lon1 lat2 lon2 : ℝ,
      calculate_distance lat1 lon1 lat2 lon2 =
        calculate_distance lat2 lon2 lat1 lon1 ∧
      calculate_distance lat1 lon1 lat1 lon1 = 0 :=
  fun lat1 lon1 lat2 lon2 =>
    ⟨calculate_distance_symm lat1 lon1 lat2 lon2,
      calculate_distance_self lat1 lon1⟩

end
